import Mathlib

/- A shallow embedding of the furhub marketplace application
   (src/app.py together with src/config.py).

   Database tables become lists of records, the upload directory becomes the
   list of file names it holds, the Flask session becomes a record of three
   optional keys, and every route handler becomes a pure function from its
   inputs to its outputs.  Werkzeug's password hashing is salted and hence
   nondeterministic, so `generate_password_hash` and `check_password_hash`
   are passed in as parameters (`gen`, `chk`); likewise
   `werkzeug.utils.secure_filename` (`sanitize`) and the random
   `secrets.token_hex(8)` (`token_hex`).

   The catalog search uses SQLAlchemy's `Item.content.contains(q)`, which on
   the SQLite backend configured in config.py compiles to
   `content LIKE '%' || q || '%'` with no escaping of the argument; SQLite's
   LIKE treats `%` and `_` in the pattern as wildcards and compares letters
   case-insensitively on the ASCII range only.  `likeMatch` below models
   exactly that semantics; Lean's `Char.toLower` folds exactly the ASCII
   range, as SQLite's LIKE does. -/

namespace Furhub

/-- All suffixes of a list, longest first.  Used to model the `%` wildcard of
SQL LIKE: `%` consumes an arbitrary prefix of the remaining text. -/
def suffixes : List Char → List (List Char)
  | [] => [[]]
  | c :: s => (c :: s) :: suffixes s

/-- SQLite LIKE pattern matching (`pattern`, then `text`): `%` matches any
sequence of characters, `_` matches exactly one character, and any other
character matches a single character up to ASCII case folding.  This is the
semantics of the SQL emitted by `Item.content.contains(q)` in `index`
(src/app.py line 107) on the configured SQLite database. -/
def likeMatch : List Char → List Char → Bool
  | [], s => s.isEmpty
  | p :: ps, s =>
    if p = '%' then (suffixes s).any (fun b => likeMatch ps b)
    else
      match s with
      | [] => false
      | c :: s' => (p == '_' || p.toLower == c.toLower) && likeMatch ps s'

/-- The filter applied by the index route for a non-empty query string `q`:
`content LIKE '%q%'` (src/app.py line 107). -/
def containsFilter (content q : String) : Bool :=
  likeMatch ('%' :: (q.data ++ ['%'])) content.data

/-- Modelled from the spec: "optional case-insensitive substring filter on
content".  `q` occurs in `content` as a substring, comparing
case-insensitively (ASCII).  This is the spec-side reference that the code's
`containsFilter` is compared against. -/
def containsCI (content q : String) : Bool :=
  (suffixes (content.data.map Char.toLower)).any
    (fun s => (q.data.map Char.toLower).isPrefixOf s)

/-- One record of the `user` table (src/app.py lines 30-41). -/
structure User where
  id : Nat
  username : String
  email : String
  password_hash : String
  is_admin : Bool
deriving DecidableEq

/-- One record of the `item` table (src/app.py lines 46-53). -/
structure Item where
  id : Nat
  content : String
  store : String
  price : String
  category : String
  image : String
  user_id : Option Nat
deriving DecidableEq

/-- One record of the `order` table (src/app.py lines 58-63).  `item_id` is a
plain integer column, not a foreign key. -/
structure Order where
  id : Nat
  item_id : Nat
  buyer_location : String
  buyer_phone : String
  buyer_email : String
deriving DecidableEq

/-- The database: the three tables plus the next auto-increment primary key
for each (SQLite assigns max-rowid-plus-one, i.e. sequential ids). -/
structure DB where
  users : List User
  items : List Item
  orders : List Order
  nextUserId : Nat
  nextItemId : Nat
  nextOrderId : Nat
deriving DecidableEq

/-- Full server state: the database plus the set of file names present in
the upload directory (`app.config["UPLOAD_FOLDER"]`). -/
structure ServerState where
  db : DB
  fs : List String
deriving DecidableEq

/-- The Flask session: the three keys the application ever sets
(src/app.py lines 169-171), each possibly absent. -/
structure Session where
  user_id : Option Nat
  username : Option String
  is_admin : Option Bool
deriving DecidableEq

/-- A session with no keys set (an unauthenticated visitor). -/
def emptySession : Session := ⟨none, none, none⟩

/-- A flashed message: text and category (`error` or `success`). -/
abbrev Flash := String × String

/-- The observable response of a handler. -/
inductive Response where
  | render : String → Response
  | renderItems : String → List Item → Response
  | renderOrders : List (Order × Item) → Response
  | redirect : String → Response
  | notFound : Response
deriving DecidableEq

/-- `ALLOWED_EXTENSIONS` (src/app.py line 21). -/
def ALLOWED_EXTENSIONS : List String := ["png", "jpg", "jpeg", "gif", "webp"]

/-- ASCII lower-casing of a string, modelling Python's `str.lower()` on the
extensions involved here. -/
def lowerStr (s : String) : String := String.mk (s.data.map Char.toLower)

/-- `filename.rsplit('.', 1)[1]`: the part of the name after the last dot
(meaningful when a dot is present). -/
def rsplitLast (f : String) : String :=
  String.mk ((f.data.reverse.takeWhile (fun c => c ≠ '.')).reverse)

/-- `allowed_file` (src/app.py lines 23-25): the name contains a dot and the
lower-cased part after the last dot is an allowed image extension. -/
def allowed_file (filename : String) : Bool :=
  decide ('.' ∈ filename.data) && decide (lowerStr (rsplitLast filename) ∈ ALLOWED_EXTENSIONS)

/-- The extension of a file name in the sense of the spec: the part after
the last dot, when the name has a dot at all. -/
def extAfterLastDot (f : String) : Option String :=
  if '.' ∈ f.data then some (rsplitLast f) else none

/-- `DEFAULT_CATEGORY` (src/app.py line 68). -/
def DEFAULT_CATEGORY : String := "寵物用品"

/-- Insert an item into a list that is sorted by id descending, keeping it
sorted.  Helper for `sortByIdDesc`. -/
def insertDesc (it : Item) : List Item → List Item
  | [] => [it]
  | x :: xs => if x.id ≤ it.id then it :: x :: xs else x :: insertDesc it xs

/-- `query.order_by(Item.id.desc())`: the rows sorted by id descending
(newest first; ids are primary keys and hence distinct in any reachable
database). -/
def sortByIdDesc (l : List Item) : List Item := l.foldr insertDesc []

/-- The index route, GET `/` (src/app.py lines 100-111): with a non-empty
query string the catalog is filtered by `content LIKE '%q%'`, with an empty
one it is not filtered; the result is ordered by id descending.  Returns the
item list handed to the template. -/
def index (items : List Item) (q : String) : List Item :=
  sortByIdDesc (if q = "" then items else items.filter (fun it => containsFilter it.content q))

/-- Modelled from the spec: the index listing as the spec describes it —
exactly the items whose content contains `q` as a case-insensitive
substring (all items when `q` is empty), ordered by id descending. -/
def indexSpec (items : List Item) (q : String) : List Item :=
  sortByIdDesc (if q = "" then items else items.filter (fun it => containsCI it.content q))

/-- Python's `str.strip()`: drop leading and trailing whitespace.  Applied by
the handlers to every text form field they read. -/
def pyStrip (s : String) : String :=
  String.mk (((s.data.dropWhile Char.isWhitespace).reverse.dropWhile Char.isWhitespace).reverse)

/-- The register route, POST `/register` (src/app.py lines 116-155).
`gen` stands for werkzeug's salted `generate_password_hash`.  Returns the
updated database, the flashed message, and the response. -/
def register (gen : String → String) (db : DB) (username email password confirm_password : String) :
    DB × Flash × Response :=
  if (pyStrip username) = "" ∨ (pyStrip email) = "" ∨ password = "" then
    (db, ("請填寫所有欄位", "error"), Response.render "register.html")
  else if password ≠ confirm_password then
    (db, ("密碼不一致", "error"), Response.render "register.html")
  else if password.length < 6 then
    (db, ("密碼至少需要6個字元", "error"), Response.render "register.html")
  else if (db.users.find? (fun u => u.username == (pyStrip username))).isSome then
    (db, ("使用者名稱已存在", "error"), Response.render "register.html")
  else if (db.users.find? (fun u => u.email == (pyStrip email))).isSome then
    (db, ("Email 已被註冊", "error"), Response.render "register.html")
  else
    ({ db with
        users := db.users ++ [⟨db.nextUserId, (pyStrip username), (pyStrip email), gen password, false⟩],
        nextUserId := db.nextUserId + 1 },
     ("註冊成功！請登入", "success"), Response.redirect "/login")

/-- The login route, POST `/login` (src/app.py lines 160-180).  `chk` stands
for werkzeug's `check_password_hash` (stored hash first, raw password
second).  Returns the session after the request, the flashed message, and
the response; the database is not touched by this handler. -/
def login (chk : String → String → Bool) (db : DB) (sess : Session) (username password : String) :
    Session × Flash × Response :=
  match db.users.find? (fun u => u.username == (pyStrip username)) with
  | some user =>
    if chk user.password_hash password then
      (⟨some user.id, some user.username, some user.is_admin⟩,
       ((if user.is_admin then "歡迎回來，管理員 " ++ user.username ++ "！"
         else "歡迎回來，" ++ user.username ++ "！"), "success"),
       Response.redirect "/")
    else (sess, ("使用者名稱或密碼錯誤", "error"), Response.render "login.html")
  | none => (sess, ("使用者名稱或密碼錯誤", "error"), Response.render "login.html")

/-- `admin_required` (src/app.py lines 85-95): `some` means the request is
blocked with the given flash and redirect, `none` means the wrapped handler
runs.  A missing `user_id` redirects to the login page; a missing or false
`is_admin` redirects to the home page. -/
def adminGuard (sess : Session) : Option (Flash × Response) :=
  if sess.user_id = none then some (("請先登入", "error"), Response.redirect "/login")
  else if sess.is_admin ≠ some true then
    some (("您沒有權限執行此操作", "error"), Response.redirect "/")
  else none

/-- The form data of an add-item POST: the three text fields and the
uploaded file, `none` when no `image` part is present in the request and
`some` of the client-supplied file name otherwise. -/
structure AddForm where
  content : String
  store : String
  price : String
  image : Option String
deriving DecidableEq

/-- The add-item route, POST `/add` (src/app.py lines 194-244), wrapped in
`admin_required`.  `sanitize` stands for `werkzeug.utils.secure_filename`
and `token_hex` for the result of `secrets.token_hex(8)`.  On success the
uploaded file is saved to the upload directory under
`token_hex ++ "_" ++ sanitize name` and an item referencing it is
inserted. -/
def add_item (sanitize : String → String) (token_hex : String) (sess : Session)
    (st : ServerState) (form : AddForm) : ServerState × Flash × Response :=
  match adminGuard sess with
  | some fr => (st, fr.1, fr.2)
  | none =>
    if (pyStrip form.content) = "" ∨ (pyStrip form.store) = "" ∨ (pyStrip form.price) = "" then
      (st, ("請填寫所有必填欄位", "error"), Response.render "add_item.html")
    else
      match form.image with
      | none => (st, ("請上傳商品圖片", "error"), Response.render "add_item.html")
      | some fname =>
        if fname = "" then (st, ("請選擇圖片檔案", "error"), Response.render "add_item.html")
        else if !allowed_file fname then
          (st, ("不支援的圖片格式，請使用 PNG、JPG、GIF 或 WebP", "error"),
           Response.render "add_item.html")
        else
          ({ db := { st.db with
               items := st.db.items ++
                 [⟨st.db.nextItemId, (pyStrip form.content), (pyStrip form.store), (pyStrip form.price),
                   DEFAULT_CATEGORY, token_hex ++ "_" ++ sanitize fname, sess.user_id⟩],
               nextItemId := st.db.nextItemId + 1 },
             fs := st.fs.insert (token_hex ++ "_" ++ sanitize fname) },
           ("商品上架成功！", "success"), Response.redirect "/")

/-- The buy route, POST `/buy/<item_id>` (src/app.py lines 257-277).  No
lookup of the item is performed: the order is created for whatever id is in
the URL. -/
def buy_item (st : ServerState) (item_id : Nat) (location phone email : String) :
    ServerState × Option Flash × Response :=
  if (pyStrip location) = "" ∨ (pyStrip phone) = "" ∨ (pyStrip email) = "" then
    (st, some ("請填寫所有必填欄位", "error"), Response.redirect ("/item/" ++ toString item_id))
  else
    ({ st with db := { st.db with
        orders := st.db.orders ++
          [⟨st.db.nextOrderId, item_id, (pyStrip location), (pyStrip phone), (pyStrip email)⟩],
        nextOrderId := st.db.nextOrderId + 1 } },
     none, Response.render "order_success.html")

/-- The delete route, `/delete/<item_id>` (src/app.py lines 282-297),
wrapped in `admin_required`: 404 when the item does not exist; otherwise the
image file is removed only if the image field is non-empty and the file is
actually present (`os.path.exists`), and the record is deleted. -/
def delete_item (sess : Session) (st : ServerState) (item_id : Nat) :
    ServerState × Option Flash × Response :=
  match adminGuard sess with
  | some fr => (st, some fr.1, fr.2)
  | none =>
    match st.db.items.find? (fun it => it.id == item_id) with
    | none => (st, none, Response.notFound)
    | some item =>
      ({ db := { st.db with items := st.db.items.erase item },
         fs := if item.image = "" then st.fs
               else if item.image ∈ st.fs then st.fs.filter (fun f => f ≠ item.image)
               else st.fs },
       some ("商品已刪除", "success"), Response.redirect "/")

/-- The my-items route, GET `/my-items` (src/app.py lines 302-307), wrapped
in `admin_required`: all items, newest first. -/
def my_items (sess : Session) (st : ServerState) : ServerState × Option Flash × Response :=
  match adminGuard sess with
  | some fr => (st, some fr.1, fr.2)
  | none => (st, none, Response.renderItems "my_items.html" (sortByIdDesc st.db.items))

/-- The order/item pairs assembled by the orders route (src/app.py lines
316-326): each order paired with `Item.query.get(order.item_id)`, dropped
when that lookup returns nothing. -/
def ordersListing (db : DB) : List (Order × Item) :=
  db.orders.filterMap
    (fun o => (db.items.find? (fun it => it.id == o.item_id)).map (fun it => (o, it)))

/-- The orders route, GET `/orders` (src/app.py lines 312-328), wrapped in
`admin_required`. -/
def orders (sess : Session) (st : ServerState) : ServerState × Option Flash × Response :=
  match adminGuard sess with
  | some fr => (st, some fr.1, fr.2)
  | none => (st, none, Response.renderOrders (ordersListing st.db))

/-- One entry of the demo catalog (src/app.py lines 380-394). -/
structure DemoProduct where
  content : String
  store : String
  price : String
  image : String

/-- The fifteen demo products seeded by `seed_demo_products`
(src/app.py lines 379-395), verbatim. -/
def demoProducts : List DemoProduct := [
  ⟨"自動伸縮寵物牽繩 5米 - 舒適防滑握把 一鍵鎖定", "FurHub 官方商城", "399", "d11cc63cf52e0c9e.png"⟩,
  ⟨"智能自動拋球機 - 狗狗互動訓練玩具 3段距離調節", "FurHub 官方商城", "1280", "ec5834f792e018b8.png"⟩,
  ⟨"Greenies 健綠潔牙骨 原味 Regular 中型犬適用 12入", "FurHub 官方商城", "450", "efaceca171ec65f4.png"⟩,
  ⟨"Milk-Bone 牛奶骨狗狗餅乾 潔牙零食 酥脆口感", "FurHub 官方商城", "320", "b52be015fa732b09.png"⟩,
  ⟨"自動清潔寵物除毛梳 - 一鍵清除浮毛 不傷皮膚 適用各種毛髮", "FurHub 官方商城", "289", "pet_brush_01.jpg"⟩,
  ⟨"保暖羊羔絨寵物毛衣 - 附D環牽繩孔 三色可選 (灰/藍/棕)", "FurHub 官方商城", "459", "pet_sweater_01.jpg"⟩,
  ⟨"竹木架高寵物碗架組 - 雙碗設計 護頸斜面 貓狗適用", "FurHub 官方商城", "680", "pet_bowl_stand_01.jpg"⟩,
  ⟨"半封閉式貓砂盆 - 時尚白灰雙色 防濺設計 大空間好清理", "FurHub 官方商城", "890", "cat_litter_box_01.jpg"⟩,
  ⟨"PETSTRO 三輪寵物推車 - 透氣網窗 可折疊收納 承重25kg", "FurHub 官方商城", "2480", "pet_stroller_01.jpg"⟩,
  ⟨"舒適絨毛寵物窩床 - 骨頭圖案 可拆洗 中大型犬適用", "FurHub 官方商城", "750", "pet_bed_01.jpg"⟩,
  ⟨"寵物專用紙尿褲 - 超強吸收 防側漏 生理期/外出必備 M號12入", "FurHub 官方商城", "320", "pet_diaper_01.jpg"⟩,
  ⟨"Portland Pet Food 手工狗零食組合 - 薑餅人/培根/南瓜餅乾 天然無穀", "FurHub 官方商城", "580", "dog_treats_combo_01.jpg"⟩,
  ⟨"Cesar 西莎狗罐頭 - 牛肉起司時蔬凍 100g 單入", "FurHub 官方商城", "45", "cesar_dog_food_01.jpg"⟩,
  ⟨"專業寵物指甲剪 - 不鏽鋼刀頭 安全鎖扣 貓狗通用", "FurHub 官方商城", "199", "pet_nail_clipper_01.jpg"⟩,
  ⟨"有機雞肉牛皮捲零食 - 天然無添加 潔牙磨牙 300g大包裝", "FurHub 官方商城", "420", "rawhide_sticks_01.jpg"⟩]

/-- The items built by the seeding loop (src/app.py lines 397-406): one item
per product, ids assigned sequentially from `nextId` at commit, all
attributed to `admin_id` and categorized with `DEFAULT_CATEGORY`.  Note that
the loop only adds database records: no file is written anywhere. -/
def buildDemoItems (admin_id : Option Nat) (nextId : Nat) : List DemoProduct → List Item
  | [] => []
  | p :: ps =>
    ⟨nextId, p.content, p.store, p.price, DEFAULT_CATEGORY, p.image, admin_id⟩ ::
      buildDemoItems admin_id (nextId + 1) ps

/-- `create_default_admin` (src/app.py lines 352-366): create the fixed
admin account unless a user named `admin` already exists. -/
def create_default_admin (gen : String → String) (db : DB) : DB :=
  match db.users.find? (fun u => u.username == "admin") with
  | some _ => db
  | none =>
    { db with
        users := db.users ++ [⟨db.nextUserId, "admin", "admin@curated.com", gen "admin123", true⟩],
        nextUserId := db.nextUserId + 1 }

/-- `seed_demo_products` (src/app.py lines 371-409): a no-op when the item
table is non-empty, otherwise insert the fifteen demo products attributed to
the `admin` user (if any).  Only database records are created; the upload
directory is not touched. -/
def seed_demo_products (db : DB) : DB :=
  if 0 < db.items.length then db
  else
    { db with
        items := db.items ++
          buildDemoItems ((db.users.find? (fun u => u.username == "admin")).map (fun u => u.id))
            db.nextItemId demoProducts,
        nextItemId := db.nextItemId + demoProducts.length }

/-- The bootstrap sequence run at startup by `init_db`
(src/app.py lines 414-419): default admin, then demo catalog. -/
def bootstrapDB (gen : String → String) (db : DB) : DB :=
  seed_demo_products (create_default_admin gen db)

/-- `init_db` (src/app.py lines 414-423): `os.makedirs` only ensures the
upload directory exists (creating it empty when missing) and
`db.create_all` only creates empty tables, so on the state level the
bootstrap changes the database and leaves the directory contents alone. -/
def init_db (gen : String → String) (st : ServerState) : ServerState :=
  { st with db := bootstrapDB gen st.db }

/-- A completely fresh database: empty tables, first id 1 for each. -/
def emptyDB : DB := ⟨[], [], [], 1, 1, 1⟩

/-- A one-item catalog used in the C1 counterexample and witness. -/
def itemA : Item := ⟨1, "a", "shop", "10", "寵物用品", "a.png", none⟩
/-- A database with one item and two orders, one of them dangling; used by
the C4 witness. -/
def dbOrders : DB :=
  ⟨[], [⟨3, "c", "s", "p", "寵物用品", "i.png", none⟩],
   [⟨1, 3, "l", "p", "e"⟩, ⟨2, 99, "l", "p", "e"⟩], 1, 4, 3⟩
/-- A database containing only the default admin account; used by the C5
counterexample. -/
def dbUserA : DB := ⟨[⟨1, "admin", "admin@curated.com", "hash", true⟩], [], [], 2, 1, 1⟩
/-- A database with one ordinary user; used by the C6 and C7 witnesses. -/
def dbAlice : DB := ⟨[⟨1, "alice", "a@x.com", "pw", false⟩], [], [], 2, 1, 1⟩
/-- A state with one item whose image names a file that is not in the upload
directory; used by the C10 witness. -/
def stGhost : ServerState :=
  ⟨⟨[], [⟨7, "c", "s", "p", "寵物用品", "ghost.png", none⟩], [], 1, 8, 1⟩, []⟩

/-- Membership in `suffixes`: exactly the right parts of a split of `s`. -/
theorem mem_suffixes {s b : List Char} : b ∈ suffixes s ↔ ∃ a, s = a ++ b := by
  induction s with
  | nil =>
    simp only [suffixes, List.mem_singleton]
    constructor
    · rintro rfl; exact ⟨[], rfl⟩
    · rintro ⟨a, ha⟩
      exact (List.append_eq_nil.mp ha.symm).2
  | cons c s ih =>
    simp only [suffixes, List.mem_cons, ih]
    constructor
    · rintro (rfl | ⟨a, rfl⟩)
      · exact ⟨[], rfl⟩
      · exact ⟨c :: a, rfl⟩
    · rintro ⟨a, ha⟩
      cases a with
      | nil => exact Or.inl (by simpa using ha.symm)
      | cons a0 a =>
        rw [List.cons_append, List.cons.injEq] at ha
        exact Or.inr ⟨a, ha.2⟩

/-- Unfolding of `likeMatch` at a leading `%`. -/
theorem likeMatch_cons_percent (ps s : List Char) :
    likeMatch ('%' :: ps) s = (suffixes s).any (fun b => likeMatch ps b) := by
  simp [likeMatch]

/-- Unfolding of `likeMatch` at a non-`%` pattern head against empty text. -/
theorem likeMatch_cons_nil {p : Char} (ps : List Char) (hp : p ≠ '%') :
    likeMatch (p :: ps) [] = false := by
  simp [likeMatch, hp]

/-- Unfolding of `likeMatch` at a non-`%` pattern head against non-empty
text. -/
theorem likeMatch_cons_cons {p c : Char} (ps s : List Char) (hp : p ≠ '%') :
    likeMatch (p :: ps) (c :: s) =
      ((p == '_' || p.toLower == c.toLower) && likeMatch ps s) := by
  simp [likeMatch, hp]

/-- A leading `%` in a LIKE pattern matches an arbitrary split point. -/
theorem likeMatch_percent {ps s : List Char} :
    likeMatch ('%' :: ps) s = true ↔ ∃ a b, s = a ++ b ∧ likeMatch ps b = true := by
  rw [likeMatch_cons_percent, List.any_eq_true]
  constructor
  · rintro ⟨b, hb, hpb⟩
    obtain ⟨a, rfl⟩ := mem_suffixes.mp hb
    exact ⟨a, b, rfl, hpb⟩
  · rintro ⟨a, b, rfl, hb⟩
    exact ⟨b, mem_suffixes.mpr ⟨a, rfl⟩, hb⟩

/-- The pattern `%` alone matches every text. -/
theorem likeMatch_percent_nil (s : List Char) : likeMatch ['%'] s = true := by
  rw [likeMatch_percent]
  exact ⟨s, [], (List.append_nil s).symm, rfl⟩

/-- A wildcard-free pattern prefix matches exactly a lower-case-equal text
prefix. -/
theorem likeMatch_plain (ps : List Char) (q : List Char) :
    (∀ c ∈ q, c ≠ '%' ∧ c ≠ '_') → ∀ s : List Char,
      (likeMatch (q ++ ps) s = true ↔
        ∃ a b, s = a ++ b ∧ a.map Char.toLower = q.map Char.toLower ∧
          likeMatch ps b = true) := by
  induction q with
  | nil =>
    intro _ s
    constructor
    · intro h; exact ⟨[], s, rfl, rfl, h⟩
    · rintro ⟨a, b, rfl, ha, hb⟩
      rw [List.map_nil, List.map_eq_nil_iff] at ha
      subst ha
      simpa using hb
  | cons p q ih =>
    intro hq s
    obtain ⟨hp1, hp2⟩ := hq p (List.mem_cons_self p q)
    have hq' : ∀ c ∈ q, c ≠ '%' ∧ c ≠ '_' := fun c hc => hq c (List.mem_cons_of_mem _ hc)
    have hpu : (p == '_') = false := by simpa using hp2
    cases s with
    | nil =>
      rw [List.cons_append, likeMatch_cons_nil _ hp1]
      constructor
      · intro h; cases h
      · rintro ⟨a, b, hab, ha, hb⟩
        obtain ⟨rfl, rfl⟩ := List.append_eq_nil.mp hab.symm
        simp at ha
    | cons c s =>
      rw [List.cons_append, likeMatch_cons_cons _ _ hp1, hpu, Bool.false_or,
        Bool.and_eq_true, beq_iff_eq, ih hq' s]
      constructor
      · rintro ⟨hc, a, b, rfl, ha, hb⟩
        refine ⟨c :: a, b, rfl, ?_, hb⟩
        rw [List.map_cons, List.map_cons, ha, hc]
      · rintro ⟨a, b, hab, ha, hb⟩
        cases a with
        | nil => simp at ha
        | cons a0 a =>
          rw [List.cons_append, List.cons.injEq] at hab
          obtain ⟨rfl, hab2⟩ := hab
          rw [List.map_cons, List.map_cons, List.cons.injEq] at ha
          exact ⟨ha.1.symm, a, b, hab2, ha.2, hb⟩

/-- On wildcard-free queries the SQL LIKE filter used by the index route
agrees with the spec's case-insensitive substring containment. -/
theorem containsFilter_eq_containsCI {content q : String}
    (hq : ∀ c ∈ q.data, c ≠ '%' ∧ c ≠ '_') :
    containsFilter content q = containsCI content q := by
  rw [Bool.eq_iff_iff]
  unfold containsFilter containsCI
  rw [likeMatch_percent]
  simp only [List.any_eq_true, mem_suffixes, List.isPrefixOf_iff_prefix]
  constructor
  · rintro ⟨a, b, hab, hb⟩
    rw [likeMatch_plain ['%'] q.data hq b] at hb
    obtain ⟨m, r, rfl, hm, _⟩ := hb
    refine ⟨(m ++ r).map Char.toLower, ⟨a.map Char.toLower, by rw [hab]; simp⟩, ?_⟩
    refine ⟨r.map Char.toLower, ?_⟩
    rw [← hm, List.map_append]
  · rintro ⟨s, ⟨x, hx⟩, ⟨t, ht⟩⟩
    rw [← ht] at hx
    rw [List.map_eq_append_iff] at hx
    obtain ⟨a, b, hab, _, hb⟩ := hx
    rw [List.map_eq_append_iff] at hb
    obtain ⟨m, r, hmr, hm, _⟩ := hb
    subst hmr
    refine ⟨a, m ++ r, hab, ?_⟩
    rw [likeMatch_plain ['%'] q.data hq (m ++ r)]
    exact ⟨m, r, rfl, by rw [hm], likeMatch_percent_nil r⟩

/-- The empty query is contained in every content string. -/
theorem containsCI_empty (content : String) : containsCI content "" = true := by
  unfold containsCI
  rw [List.any_eq_true]
  refine ⟨content.data.map Char.toLower, mem_suffixes.mpr ⟨[], rfl⟩, ?_⟩
  rw [List.isPrefixOf_iff_prefix]
  have h0 : ("" : String).data = [] := rfl
  rw [h0, List.map_nil]
  exact List.nil_prefix

/-- Membership after inserting into a descending list. -/
theorem mem_insertDesc {it x : Item} {l : List Item} :
    x ∈ insertDesc it l ↔ x = it ∨ x ∈ l := by
  induction l with
  | nil => simp [insertDesc]
  | cons y ys ih =>
    unfold insertDesc
    split
    · simp [List.mem_cons]
    · rw [List.mem_cons, ih, List.mem_cons]
      tauto

/-- Sorting does not change the members of the list. -/
theorem mem_sortByIdDesc {x : Item} {l : List Item} : x ∈ sortByIdDesc l ↔ x ∈ l := by
  induction l with
  | nil => simp [sortByIdDesc]
  | cons y ys ih =>
    show x ∈ insertDesc y (sortByIdDesc ys) ↔ _
    rw [mem_insertDesc, ih, List.mem_cons]

/-- Inserting preserves descending order of ids. -/
theorem pairwise_insertDesc {it : Item} {l : List Item}
    (h : List.Pairwise (fun a b => b.id ≤ a.id) l) :
    List.Pairwise (fun a b => b.id ≤ a.id) (insertDesc it l) := by
  induction l with
  | nil => simp [insertDesc]
  | cons y ys ih =>
    rw [List.pairwise_cons] at h
    unfold insertDesc
    split
    · rename_i hle
      refine List.Pairwise.cons ?_ (List.Pairwise.cons h.1 h.2)
      intro z hz
      rcases List.mem_cons.mp hz with rfl | hz2
      · exact hle
      · exact le_trans (h.1 z hz2) hle
    · rename_i hgt
      refine List.Pairwise.cons ?_ (ih h.2)
      intro z hz
      rcases mem_insertDesc.mp hz with rfl | hz2
      · omega
      · exact h.1 z hz2

/-- The result of `sortByIdDesc` is ordered by id descending. -/
theorem pairwise_sortByIdDesc (l : List Item) :
    List.Pairwise (fun a b => b.id ≤ a.id) (sortByIdDesc l) := by
  induction l with
  | nil => simp [sortByIdDesc]
  | cons y ys ih => exact pairwise_insertDesc ih

/-- Claim C1 (amended): for every catalog state and every query string `q`
that contains no SQL LIKE wildcard character (`%` or `_`), the index listing
agrees with the spec's description: it returns exactly the items whose
content contains `q` as a case-insensitive substring (hence, for `q = ""`,
every item), ordered by id descending.  The wildcard-free restriction is
necessary: see the counterexample theorem. -/
theorem index_matches_spec_on_wildcard_free (items : List Item) (q : String)
    (hq : ∀ c ∈ q.data, c ≠ '%' ∧ c ≠ '_') :
    index items q = indexSpec items q ∧
    (∀ it : Item, it ∈ index items q ↔ it ∈ items ∧ containsCI it.content q = true) ∧
    List.Pairwise (fun a b => b.id ≤ a.id) (index items q) := by
  have hfe : index items q = indexSpec items q := by
    unfold index indexSpec
    by_cases hq0 : q = ""
    · rw [if_pos hq0, if_pos hq0]
    · rw [if_neg hq0, if_neg hq0]
      exact congrArg sortByIdDesc
        (List.filter_congr (fun it _ => containsFilter_eq_containsCI hq))
  refine ⟨hfe, ?_, ?_⟩
  · intro it
    rw [hfe]
    unfold indexSpec
    by_cases hq0 : q = ""
    · subst hq0
      rw [if_pos rfl, mem_sortByIdDesc]
      simp [containsCI_empty]
    · rw [if_neg hq0, mem_sortByIdDesc, List.mem_filter]
  · unfold index
    exact pairwise_sortByIdDesc _

/-- Claim C1 (counterexample): for the non-empty query `"_"` on a catalog
whose single item has content `"a"`, the index listing returns that item
although its content does not contain `"_"` as a (case-insensitive)
substring — the underscore acts as a LIKE wildcard, refuting the claim that
the listing returns exactly the items whose content contains the query. -/
theorem index_wildcard_counterexample :
    ("_" : String) ≠ "" ∧ index [itemA] "_" = [itemA] ∧
      containsCI itemA.content "_" = false := by
  refine ⟨by decide, by decide, by decide⟩

/-- Witness for the amended C1 theorem at a concrete input. -/
theorem index_matches_spec_witness :
    index [itemA] "Leash" = indexSpec [itemA] "Leash" ∧
    (∀ it : Item, it ∈ index [itemA] "Leash" ↔
      it ∈ [itemA] ∧ containsCI it.content "Leash" = true) ∧
    List.Pairwise (fun a b => b.id ≤ a.id) (index [itemA] "Leash") :=
  index_matches_spec_on_wildcard_free [itemA] "Leash" (by decide)

/-- Case analysis of the add-item handler: either the request is rejected
(by the guard or a validation) and the state is returned unchanged, or the
submitted file name passed the extension check, the file was saved under its
tokenized name and the corresponding item was inserted. -/
theorem add_item_state_cases (sanitize : String → String) (token_hex : String)
    (sess : Session) (st : ServerState) (form : AddForm) :
    (add_item sanitize token_hex sess st form).1 = st ∨
    ∃ fname, form.image = some fname ∧ fname ≠ "" ∧ allowed_file fname = true ∧
      (add_item sanitize token_hex sess st form).1 =
        { db := { st.db with
            items := st.db.items ++
              [⟨st.db.nextItemId, pyStrip form.content, pyStrip form.store,
                pyStrip form.price, DEFAULT_CATEGORY,
                token_hex ++ "_" ++ sanitize fname, sess.user_id⟩],
            nextItemId := st.db.nextItemId + 1 },
          fs := st.fs.insert (token_hex ++ "_" ++ sanitize fname) } := by
  unfold add_item
  split
  · exact Or.inl rfl
  · split
    · exact Or.inl rfl
    · split
      · exact Or.inl rfl
      · rename_i fname heq
        split
        · exact Or.inl rfl
        · split
          · exact Or.inl rfl
          · rename_i hne hal
            refine Or.inr ⟨fname, heq, hne, ?_, rfl⟩
            simpa using hal

/-- Claim C2 (amended): for the add-item handler, every item record present
after the request that was not present before it names an image file that is
physically present in the upload directory after the request.  The demo
seeder does not share this property: it inserts item records without writing
any files, so its image fields name present files only if they already
existed — see the counterexample theorem. -/
theorem add_item_creates_image_file (sanitize : String → String) (token_hex : String)
    (sess : Session) (st : ServerState) (form : AddForm) (it : Item)
    (hmem : it ∈ (add_item sanitize token_hex sess st form).1.db.items)
    (hnew : it ∉ st.db.items) :
    it.image ∈ (add_item sanitize token_hex sess st form).1.fs := by
  rcases add_item_state_cases sanitize token_hex sess st form with h | ⟨fname, _, _, _, h⟩
  · rw [h] at hmem
    exact absurd hmem hnew
  · rw [h] at hmem ⊢
    rcases List.mem_append.mp hmem with h2 | h2
    · exact absurd h2 hnew
    · rw [List.mem_singleton] at h2
      subst h2
      exact List.mem_insert_self _ _

/-- Witness for the add-item half of C2 at a concrete input. -/
theorem add_item_creates_image_file_witness :
    (⟨1, "Dog bed", "Shop", "10", DEFAULT_CATEGORY, "0123456789abcdef_a.png", some 1⟩ :
        Item).image ∈
      (add_item (fun s => s) "0123456789abcdef" ⟨some 1, some "admin", some true⟩
        ⟨emptyDB, []⟩ ⟨"Dog bed", "Shop", "10", some "a.png"⟩).1.fs :=
  add_item_creates_image_file _ _ _ _ _ _ (by decide) (by decide)

/-- Claim C2 (counterexample): bootstrapping a completely fresh server state
(whose upload directory `init_db` has just created empty) seeds item records
whose non-empty image fields name files that are not present in the upload
directory, refuting the claim for the demo seeder. -/
theorem seeder_writes_no_files_counterexample :
    ∃ it ∈ (init_db (fun p => p) ⟨emptyDB, []⟩).db.items,
      it.image ≠ "" ∧ it.image ∉ (init_db (fun p => p) ⟨emptyDB, []⟩).fs := by
  decide

/-- If a predicate finds nothing in the first list, searching the
concatenation searches the second list. -/
theorem find?_append_none {α : Type} (p : α → Bool) {l1 : List α} (l2 : List α)
    (h : l1.find? p = none) : (l1 ++ l2).find? p = l2.find? p := by
  rw [List.find?_append, h, Option.none_or]

/-- After `create_default_admin` a user named `admin` always exists. -/
theorem create_default_admin_has_admin (gen : String → String) (db : DB) :
    ((create_default_admin gen db).users.find? (fun u => u.username == "admin")).isSome = true := by
  unfold create_default_admin
  cases h : db.users.find? (fun u => u.username == "admin") with
  | some u => simp [h]
  | none =>
    simp only [h]
    rw [find?_append_none _ _ h]
    rw [List.find?_cons_of_pos _ rfl]
    rfl

/-- Creating the default admin on a database that already has a user named
`admin` is a no-op. -/
theorem create_default_admin_of_has_admin {gen : String → String} {db : DB}
    (h : (db.users.find? (fun u => u.username == "admin")).isSome = true) :
    create_default_admin gen db = db := by
  obtain ⟨u, hu⟩ := Option.isSome_iff_exists.mp h
  unfold create_default_admin
  rw [hu]

/-- `seed_demo_products` never touches the user table. -/
theorem seed_demo_products_users (db : DB) : (seed_demo_products db).users = db.users := by
  unfold seed_demo_products
  split <;> rfl

/-- `buildDemoItems` builds one item per product. -/
theorem buildDemoItems_length (aid : Option Nat) (ps : List DemoProduct) : ∀ n : Nat,
    (buildDemoItems aid n ps).length = ps.length := by
  induction ps with
  | nil => intro n; rfl
  | cons p ps ih => intro n; simp [buildDemoItems, ih]

/-- After `seed_demo_products` the item table is never empty. -/
theorem seed_demo_products_items_pos (db : DB) :
    0 < (seed_demo_products db).items.length := by
  unfold seed_demo_products
  split
  · assumption
  · simp only [List.length_append, buildDemoItems_length]
    have h15 : demoProducts.length = 15 := rfl
    omega

/-- Seeding a database whose item table is already non-empty is a no-op. -/
theorem seed_demo_products_of_pos {db : DB} (h : 0 < db.items.length) :
    seed_demo_products db = db := by
  unfold seed_demo_products
  rw [if_pos h]

/-- Claim C3 (confirmed): running the bootstrap (create_default_admin
followed by seed_demo_products) a second time on any state produced by a
first run is a no-op — the second run creates no second `admin` user and
inserts no demo items, leaving the whole database (user and item tables
included) unchanged.  The second run may even use a different password-hash
function (werkzeug's hashing is salted, so reruns hash differently). -/
theorem bootstrap_idempotent (gen1 gen2 : String → String) (db : DB) :
    bootstrapDB gen2 (bootstrapDB gen1 db) = bootstrapDB gen1 db := by
  unfold bootstrapDB
  rw [create_default_admin_of_has_admin
    (by rw [seed_demo_products_users]; exact create_default_admin_has_admin gen1 db)]
  exact seed_demo_products_of_pos (seed_demo_products_items_pos _)

/-- Claim C4 (confirmed): a buy request for any item id — including ids for
which no item record exists — with non-empty location, phone and email
appends an order record carrying exactly that item id; and the admin orders
listing contains exactly the (order, item) pairs whose `item_id` resolves to
an existing item, silently omitting dangling orders. -/
theorem buy_any_id_and_orders_listing_joins :
    (∀ (st : ServerState) (i : Nat) (loc ph em : String),
      pyStrip loc ≠ "" → pyStrip ph ≠ "" → pyStrip em ≠ "" →
      (buy_item st i loc ph em).1.db.orders =
        st.db.orders ++ [⟨st.db.nextOrderId, i, pyStrip loc, pyStrip ph, pyStrip em⟩]) ∧
    (∀ (db : DB) (o : Order) (it : Item),
      (o, it) ∈ ordersListing db ↔
        o ∈ db.orders ∧ db.items.find? (fun x => x.id == o.item_id) = some it) := by
  constructor
  · intro st i loc ph em h1 h2 h3
    unfold buy_item
    rw [if_neg (by simp [h1, h2, h3])]
  · intro db o it
    unfold ordersListing
    rw [List.mem_filterMap]
    constructor
    · rintro ⟨o2, ho2, hf⟩
      rw [Option.map_eq_some'] at hf
      obtain ⟨it2, hfind, heq⟩ := hf
      rw [Prod.mk.injEq] at heq
      obtain ⟨rfl, rfl⟩ := heq
      exact ⟨ho2, hfind⟩
    · rintro ⟨ho, hfind⟩
      refine ⟨o, ho, ?_⟩
      rw [hfind]
      rfl

/-- Witness for C4: a buy of a non-existent id 999 creates the order, and a
dangling order is omitted from the listing. -/
theorem buy_any_id_and_orders_listing_joins_witness :
    (buy_item ⟨emptyDB, []⟩ 999 "loc" "ph" "em").1.db.orders =
      emptyDB.orders ++ [⟨emptyDB.nextOrderId, 999, pyStrip "loc", pyStrip "ph", pyStrip "em"⟩] ∧
    ((⟨2, 99, "l", "p", "e"⟩, ⟨3, "c", "s", "p", "寵物用品", "i.png", none⟩) ∈
        ordersListing dbOrders ↔
      (⟨2, 99, "l", "p", "e"⟩ : Order) ∈ dbOrders.orders ∧
        dbOrders.items.find? (fun x => x.id == (⟨2, 99, "l", "p", "e"⟩ : Order).item_id) =
          some ⟨3, "c", "s", "p", "寵物用品", "i.png", none⟩) :=
  ⟨buy_any_id_and_orders_listing_joins.1 ⟨emptyDB, []⟩ 999 "loc" "ph" "em"
      (by decide) (by decide) (by decide),
   buy_any_id_and_orders_listing_joins.2 dbOrders _ _⟩

/-- Claim C5 (amended): a registration attempt whose stripped username or
email duplicates an existing user's never creates a user record (the whole
database is unchanged); and when the attempt passes the earlier validations
(all fields non-empty, matching passwords of length at least 6), the
duplicate-username case and the duplicate-email case flash specific,
distinct messages (username is checked first).  Without those validations
the claim fails: see the counterexample theorem. -/
theorem register_duplicate_rejected (gen : String → String) (db : DB)
    (u e p cp : String) :
    (((∃ usr ∈ db.users, usr.username = pyStrip u) ∨
        (∃ usr ∈ db.users, usr.email = pyStrip e)) →
      (register gen db u e p cp).1 = db) ∧
    (pyStrip u ≠ "" → pyStrip e ≠ "" → p ≠ "" → p = cp → ¬ p.length < 6 →
      ((∃ usr ∈ db.users, usr.username = pyStrip u) →
        (register gen db u e p cp).2.1 = ("使用者名稱已存在", "error")) ∧
      ((¬ ∃ usr ∈ db.users, usr.username = pyStrip u) →
        (∃ usr ∈ db.users, usr.email = pyStrip e) →
        (register gen db u e p cp).2.1 = ("Email 已被註冊", "error"))) ∧
    ("使用者名稱已存在", "error") ≠ (("Email 已被註冊", "error") : Flash) := by
  refine ⟨?_, ?_, by decide⟩
  · intro hdup
    unfold register
    split
    · rfl
    · split
      · rfl
      · split
        · rfl
        · split
          · rfl
          · split
            · rfl
            · rename_i h4 h5
              exfalso
              rcases hdup with ⟨usr, hmem, heq⟩ | ⟨usr, hmem, heq⟩
              · exact h4 (List.find?_isSome.mpr ⟨usr, hmem, by simp [heq]⟩)
              · exact h5 (List.find?_isSome.mpr ⟨usr, hmem, by simp [heq]⟩)
  · intro h1 h2 h3 h4 h5
    constructor
    · rintro ⟨usr, hmem, heq⟩
      unfold register
      rw [if_neg (by simp [h1, h2, h3]), if_neg (by simp [h4]), if_neg h5,
        if_pos (List.find?_isSome.mpr ⟨usr, hmem, by simp [heq]⟩)]
    · intro hnu
      rintro ⟨usr, hmem, heq⟩
      unfold register
      rw [if_neg (by simp [h1, h2, h3]), if_neg (by simp [h4]), if_neg h5,
        if_neg ?hemail, if_pos (List.find?_isSome.mpr ⟨usr, hmem, by simp [heq]⟩)]
      case hemail =>
        intro hs
        obtain ⟨usr2, hmem2, hp2⟩ := List.find?_isSome.mp hs
        exact hnu ⟨usr2, hmem2, by simpa using hp2⟩

/-- Witness for the amended C5 theorem: a concrete duplicate-username
attempt that passes all earlier validations leaves the database unchanged
and flashes the username-taken message. -/
theorem register_duplicate_rejected_witness :
    (register (fun p => p) dbUserA "admin" "e@x.com" "abcdef" "abcdef").1 = dbUserA ∧
    (register (fun p => p) dbUserA "admin" "e@x.com" "abcdef" "abcdef").2.1 =
      ("使用者名稱已存在", "error") :=
  ⟨(register_duplicate_rejected (fun p => p) dbUserA "admin" "e@x.com" "abcdef" "abcdef").1
      (Or.inl (by decide)),
   ((register_duplicate_rejected (fun p => p) dbUserA "admin" "e@x.com" "abcdef" "abcdef").2.1
      (by decide) (by decide) (by decide) rfl (by decide)).1 (by decide)⟩

/-- Claim C5 (counterexample): a duplicate-username attempt and a
duplicate-email attempt, both with short passwords, flash the very same
message (the password-length error), so no error distinct between the two
duplicate cases is shown. -/
theorem register_duplicate_message_counterexample :
    (∃ usr ∈ dbUserA.users, usr.username = pyStrip "admin") ∧
    (∃ usr ∈ dbUserA.users, usr.email = pyStrip "admin@curated.com") ∧
    (register (fun p => p) dbUserA "admin" "other@x.com" "abc" "abc").2.1 =
      (register (fun p => p) dbUserA "bob" "admin@curated.com" "abc" "abc").2.1 ∧
    (register (fun p => p) dbUserA "admin" "other@x.com" "abc" "abc").2.1 ≠
      ("使用者名稱已存在", "error") := by
  decide

/-- When usernames are pairwise distinct (the `unique=True` column
constraint), `find?` by username returns exactly the member with that
username. -/
theorem find?_user_eq_some {users : List User} {n : String} {u : User}
    (hnd : (users.map (fun x => x.username)).Nodup)
    (hmem : u ∈ users) (hname : u.username = n) :
    users.find? (fun x => x.username == n) = some u := by
  induction users with
  | nil => cases hmem
  | cons v vs ih =>
    rw [List.map_cons, List.nodup_cons] at hnd
    rcases List.mem_cons.mp hmem with rfl | hmem2
    · rw [List.find?_cons_of_pos _ (by simp [hname])]
    · by_cases hv : v.username = n
      · exfalso
        refine hnd.1 ?_
        rw [hv, ← hname]
        exact List.mem_map_of_mem _ hmem2
      · rw [List.find?_cons_of_neg _ (by simp [hv])]
        exact ih hnd.2 hmem2

/-- Claim C6 (confirmed): for every user table with distinct usernames and
every submitted username and password, login succeeds (redirects home and
establishes a session) exactly when a user with the (stripped) submitted
username exists whose stored hash verifies against the submitted password;
and on success the session carries exactly that user's id, username and
stored `is_admin` flag. -/
theorem login_succeeds_iff (chk : String → String → Bool) (db : DB) (sess : Session)
    (u p : String) (hnd : (db.users.map (fun x => x.username)).Nodup) :
    ((login chk db sess u p).2.2 = Response.redirect "/" ↔
      ∃ usr ∈ db.users, usr.username = pyStrip u ∧ chk usr.password_hash p = true) ∧
    (∀ usr ∈ db.users, usr.username = pyStrip u → chk usr.password_hash p = true →
      (login chk db sess u p).1 = ⟨some usr.id, some usr.username, some usr.is_admin⟩) := by
  constructor
  · constructor
    · intro hs
      unfold login at hs
      split at hs
      · rename_i usr hf
        split at hs
        · rename_i hc
          exact ⟨usr, List.mem_of_find?_eq_some hf, by simpa using List.find?_some hf, hc⟩
        · exact absurd (show Response.render "login.html" = Response.redirect "/" from hs)
            (by decide)
      · exact absurd (show Response.render "login.html" = Response.redirect "/" from hs)
          (by decide)
    · rintro ⟨usr, hmem, hname, hchk⟩
      unfold login
      rw [find?_user_eq_some hnd hmem hname]
      simp [hchk]
  · rintro usr hmem hname hchk
    unfold login
    rw [find?_user_eq_some hnd hmem hname]
    simp [hchk]

/-- Witness for C6 at a concrete database, user and password check. -/
theorem login_succeeds_iff_witness :
    ((login (fun h q => h == q) dbAlice emptySession "alice" "pw").2.2 =
        Response.redirect "/" ↔
      ∃ usr ∈ dbAlice.users, usr.username = pyStrip "alice" ∧
        (fun h q => h == q) usr.password_hash "pw" = true) ∧
    (∀ usr ∈ dbAlice.users, usr.username = pyStrip "alice" →
      (fun h q => h == q) usr.password_hash "pw" = true →
      (login (fun h q => h == q) dbAlice emptySession "alice" "pw").1 =
        ⟨some usr.id, some usr.username, some usr.is_admin⟩) :=
  login_succeeds_iff (fun h q => h == q) dbAlice emptySession "alice" "pw" (by decide)

/-- Claim C7 (confirmed): a failing login with an unknown username and a
failing login with a known username but wrong password are observably
identical — the same handler result, with the session left untouched, the
single generic error message flashed, and the login page re-rendered.  The
login handler takes no database state to a new value at all (its type
returns none), so no state is mutated. -/
theorem login_failures_indistinguishable (chk : String → String → Bool) (db : DB)
    (sess : Session) (u1 p1 u2 p2 : String)
    (h1 : ∀ usr ∈ db.users, usr.username ≠ pyStrip u1)
    (_h2 : ∃ usr ∈ db.users, usr.username = pyStrip u2)
    (h3 : ∀ usr ∈ db.users, chk usr.password_hash p2 = false) :
    login chk db sess u1 p1 = login chk db sess u2 p2 ∧
    (login chk db sess u1 p1).1 = sess ∧
    (login chk db sess u1 p1).2.1 = ("使用者名稱或密碼錯誤", "error") ∧
    (login chk db sess u1 p1).2.2 = Response.render "login.html" := by
  have e1 : db.users.find? (fun x => x.username == pyStrip u1) = none :=
    List.find?_eq_none.mpr (fun x hx => by simp [h1 x hx])
  unfold login
  rw [e1]
  cases hf : db.users.find? (fun x => x.username == pyStrip u2) with
  | none => exact ⟨rfl, rfl, rfl, rfl⟩
  | some usr =>
    have hc := h3 usr (List.mem_of_find?_eq_some hf)
    simp [hc]

/-- Witness for C7: concrete unknown-user and wrong-password attempts. -/
theorem login_failures_indistinguishable_witness :
    login (fun h q => h == q) dbAlice emptySession "bob" "pw" =
      login (fun h q => h == q) dbAlice emptySession "alice" "wrong" ∧
    (login (fun h q => h == q) dbAlice emptySession "bob" "pw").1 = emptySession ∧
    (login (fun h q => h == q) dbAlice emptySession "bob" "pw").2.1 =
      ("使用者名稱或密碼錯誤", "error") ∧
    (login (fun h q => h == q) dbAlice emptySession "bob" "pw").2.2 =
      Response.render "login.html" :=
  login_failures_indistinguishable (fun h q => h == q) dbAlice emptySession
    "bob" "pw" "alice" "wrong" (by decide) (by decide) (by decide)

/-- Claim C8 (confirmed): the upload validation accepts a file name exactly
when the lower-cased part after its last dot is one of the five allowed
image extensions; in particular `x.exe` is rejected and `x.PNG` accepted;
and whenever the submitted file name fails the validation, the add-item
handler leaves the entire server state (files and items) unchanged. -/
theorem allowed_file_spec :
    (∀ f : String, allowed_file f = true ↔
      ∃ ext, extAfterLastDot f = some ext ∧ lowerStr ext ∈ ALLOWED_EXTENSIONS) ∧
    allowed_file "x.exe" = false ∧ allowed_file "x.PNG" = true ∧
    (∀ (sanitize : String → String) (token_hex : String) (sess : Session)
      (st : ServerState) (form : AddForm) (fname : String),
      form.image = some fname → allowed_file fname = false →
      (add_item sanitize token_hex sess st form).1 = st) := by
  refine ⟨?_, by decide, by decide, ?_⟩
  · intro f
    unfold allowed_file extAfterLastDot
    by_cases hdot : '.' ∈ f.data
    · rw [if_pos hdot]
      simp [hdot]
    · rw [if_neg hdot]
      simp [hdot]
  · intro sanitize token_hex sess st form fname him hal
    rcases add_item_state_cases sanitize token_hex sess st form with h | ⟨fn2, him2, _, hal2, _⟩
    · exact h
    · rw [him] at him2
      injection him2 with hfn
      subst hfn
      rw [hal] at hal2
      exact absurd hal2 (by decide)

/-- Witness for C8: a rejected `.exe` upload leaves the state unchanged. -/
theorem allowed_file_spec_witness :
    (add_item (fun s => s) "ab12" ⟨some 1, some "admin", some true⟩ ⟨emptyDB, []⟩
      ⟨"c", "s", "p", some "x.exe"⟩).1 = ⟨emptyDB, []⟩ :=
  allowed_file_spec.2.2.2 _ _ _ _ _ "x.exe" rfl (by decide)

/-- Claim C9 (confirmed): every request to add, delete, my-items or orders
under a session whose admin flag is absent or false (including the empty
session) is answered by the guard alone — a redirect to the login page when
no user id is in the session, to the home page otherwise — with the server
state returned untouched, so the guarded handler bodies never mutate
anything. -/
theorem admin_guard_blocks (sanitize : String → String) (token_hex : String)
    (sess : Session) (st : ServerState) (form : AddForm) (i : Nat)
    (h : sess.is_admin = none ∨ sess.is_admin = some false) :
    ∃ fr : Flash × Response,
      fr.2 = Response.redirect (if sess.user_id = none then "/login" else "/") ∧
      add_item sanitize token_hex sess st form = (st, fr.1, fr.2) ∧
      delete_item sess st i = (st, some fr.1, fr.2) ∧
      my_items sess st = (st, some fr.1, fr.2) ∧
      orders sess st = (st, some fr.1, fr.2) := by
  have hadm : sess.is_admin ≠ some true := by
    rcases h with h | h <;> simp [h]
  have hg : adminGuard sess =
      some (if sess.user_id = none then (("請先登入", "error"), Response.redirect "/login")
            else (("您沒有權限執行此操作", "error"), Response.redirect "/")) := by
    unfold adminGuard
    by_cases huid : sess.user_id = none
    · rw [if_pos huid, if_pos huid]
    · rw [if_neg huid, if_neg huid, if_pos hadm]
  refine ⟨(if sess.user_id = none then (("請先登入", "error"), Response.redirect "/login")
           else (("您沒有權限執行此操作", "error"), Response.redirect "/")), ?_, ?_, ?_, ?_, ?_⟩
  · by_cases huid : sess.user_id = none <;> simp [huid]
  · unfold add_item
    simp only [hg]
  · unfold delete_item
    simp only [hg]
  · unfold my_items
    simp only [hg]
  · unfold orders
    simp only [hg]

/-- Witness for C9: the empty session is turned away from all four admin
routes with a redirect to the login page and an unchanged state. -/
theorem admin_guard_blocks_witness :
    ∃ fr : Flash × Response,
      fr.2 = Response.redirect (if emptySession.user_id = none then "/login" else "/") ∧
      add_item (fun s => s) "tk" emptySession ⟨emptyDB, []⟩ ⟨"c", "s", "p", none⟩ =
        (⟨emptyDB, []⟩, fr.1, fr.2) ∧
      delete_item emptySession ⟨emptyDB, []⟩ 1 = (⟨emptyDB, []⟩, some fr.1, fr.2) ∧
      my_items emptySession ⟨emptyDB, []⟩ = (⟨emptyDB, []⟩, some fr.1, fr.2) ∧
      orders emptySession ⟨emptyDB, []⟩ = (⟨emptyDB, []⟩, some fr.1, fr.2) :=
  admin_guard_blocks (fun s => s) "tk" emptySession ⟨emptyDB, []⟩ ⟨"c", "s", "p", none⟩ 1
    (Or.inl rfl)

/-- Claim C10 (confirmed): an admin delete of an existing item whose image
field is empty or names a file absent from the upload directory still
succeeds — the file-removal step is skipped (the directory is unchanged),
the item record is deleted, and the request ends in the success flash and
redirect home. -/
theorem delete_missing_file_succeeds (sess : Session) (st : ServerState) (i : Nat)
    (it : Item) (hadm1 : sess.user_id ≠ none) (hadm2 : sess.is_admin = some true)
    (hfind : st.db.items.find? (fun x => x.id == i) = some it)
    (himg : it.image = "" ∨ it.image ∉ st.fs) :
    delete_item sess st i =
      (⟨{ st.db with items := st.db.items.erase it }, st.fs⟩,
       some ("商品已刪除", "success"), Response.redirect "/") := by
  have hg : adminGuard sess = none := by
    unfold adminGuard
    rw [if_neg hadm1, if_neg (by simp [hadm2])]
  unfold delete_item
  simp only [hg, hfind]
  rcases himg with h | h
  · rw [if_pos h]
  · by_cases h0 : it.image = ""
    · rw [if_pos h0]
    · rw [if_neg h0, if_neg h]

/-- Witness for C10: deleting the item whose image file is missing. -/
theorem delete_missing_file_succeeds_witness :
    delete_item ⟨some 1, some "admin", some true⟩ stGhost 7 =
      (⟨{ stGhost.db with
            items := stGhost.db.items.erase ⟨7, "c", "s", "p", "寵物用品", "ghost.png", none⟩ },
          stGhost.fs⟩,
       some ("商品已刪除", "success"), Response.redirect "/") :=
  delete_missing_file_succeeds ⟨some 1, some "admin", some true⟩ stGhost 7
    ⟨7, "c", "s", "p", "寵物用品", "ghost.png", none⟩ (by decide) rfl (by decide)
    (Or.inr (by decide))

end Furhub

